import Mathlib

/-!
Shallow embedding of `cognite_cdm_file_upload.py`.

The script talks to a remote platform through an SDK client.  We embed the
remote side as a `Remote` structure of mock response functions, and every
embedded procedure returns, next to its Python return value, the list of
network calls it issued (`List NetworkCall`), so that call-count properties
("zero create calls", "uploader never invoked") are statable.  The local
filesystem is a function `String → Option (List UInt8)`; `none` means the
`open` call raises `FileNotFoundError`.  Python `print` output is not
modelled; the distinct diagnostic paths of the upload procedure are
instead reflected in the `UploadOutcome` inductive.
-/

namespace CogniteCdmFileUpload

/-- Environment as seen by `os.getenv`: `none` models an unset variable,
`some s` a variable set to the string `s` (possibly empty). -/
structure Env where
  cognite_project : Option String
  cdf_cluster : Option String
  cognite_tenant_id : Option String
  cognite_client_id : Option String
  cognite_client_secret : Option String
deriving DecidableEq

/-- Python truthiness of an optional string: `None` and `""` are falsy. -/
def truthy : Option String → Bool
  | none => false
  | some s => !s.isEmpty

/-- Embeds `cognite.client.data_classes.data_modeling.SpaceApply`. -/
structure SpaceApply where
  space : String
  name : String
  description : String
deriving DecidableEq

/-- Embeds `CogniteFileApply`: the file-facet source attached to an
instance node, as constructed at lines 67-71 of the script. -/
structure CogniteFileApply where
  file_external_id : String
  name : String
  mime_type : String
deriving DecidableEq

/-- Embeds `InstanceApply`: the node-apply request, lines 74-78. -/
structure InstanceApply where
  space : String
  external_id : String
  sources : List CogniteFileApply
deriving DecidableEq

/-- Embeds `NodeApplyInfo`: identity and version of a created node. -/
structure NodeApplyInfo where
  space : String
  external_id : String
  version : Nat
deriving DecidableEq

/-- Embeds `NodeId`, the back-reference passed as `source_id`. -/
structure NodeId where
  space : String
  external_id : String
deriving DecidableEq

/-- Embeds `FileMetadata`, the value returned by `files.upload_bytes`. -/
structure FileMetadata where
  external_id : String
  name : String
deriving DecidableEq

/-- The arguments of the one `files.upload_bytes` call, lines 136-142. -/
structure UploadArgs where
  content : List UInt8
  external_id : String
  mime_type : String
  source_id : NodeId
deriving DecidableEq

/-- One network call issued by the script, recorded in issue order.
`tokenInspect` stands for the verification call `iam.token.inspect()`
(whose execution also performs the lazy credential exchange). -/
inductive NetworkCall where
  | tokenInspect
  | spaceRetrieve (space : String)
  | spaceApply (sp : SpaceApply)
  | instanceApply (inst : InstanceApply)
  | fileUpload (args : UploadArgs)
deriving DecidableEq

/-- Outcome of `data_modeling.spaces.retrieve`: success, a raised
`CogniteNotFoundError`, or any other raised exception (with message). -/
inductive RetrieveOutcome where
  | found
  | notFound
  | otherError (msg : String)
deriving DecidableEq

/-- The remote platform as an opaque collaborator: a mock giving each
SDK call a deterministic response (`Except` errors model raised
exceptions). -/
structure Remote where
  tokenInspect : Except String Unit
  retrieveSpace : String → RetrieveOutcome
  applySpace : SpaceApply → Except String Unit
  applyInstance : InstanceApply → Except String (List NodeApplyInfo)
  uploadBytes : UploadArgs → Except String FileMetadata

/-- Embeds `OAuthClientCredentials` as constructed at lines 186-191. -/
structure OAuthClientCredentials where
  token_url : String
  client_id : String
  client_secret : String
  scopes : List String
deriving DecidableEq

/-- Embeds `CogniteClientConfig` as constructed at lines 192-197. -/
structure CogniteClientConfig where
  client_name : String
  project : String
  base_url : String
  credentials : OAuthClientCredentials

/-- Embeds an initialized `CogniteClient`: its configuration together
with the handle to the remote side it talks to. -/
structure CogniteClient where
  config : CogniteClientConfig
  remote : Remote

/-- The local filesystem: the bytes readable at a path, or `none` when
opening the path raises `FileNotFoundError`. -/
abbrev FileSystem : Type := String → Option (List UInt8)

/-- Placeholder variable `local_file_path` (line 16). -/
def local_file_path : String := "./test_file_jules.txt"

/-- Placeholder variable `cdm_space` (line 17). -/
def cdm_space : String := "my_files_space"

/-- Placeholder variable `instance_external_id` (line 18). -/
def instance_external_id : String := "my_document_instance_001"

/-- Placeholder variable `instance_name` (line 19). -/
def instance_name : String := "My Document Example"

/-- Placeholder variable `instance_mime_type` (line 20). -/
def instance_mime_type : Option String := some "text/plain"

/-- Module-level `CDF_CLUSTER = os.getenv("CDF_CLUSTER", "api")` (line 24). -/
def CDF_CLUSTER (env : Env) : String := env.cdf_cluster.getD "api"

/-- Module-level `IDP_SCOPES` (line 28). -/
def IDP_SCOPES (env : Env) : List String :=
  ["https://" ++ CDF_CLUSTER env ++ ".cognitedata.com/.default"]

/-- Model of Python `mimetypes`: the extension-to-type table consulted by
`mimetypes.guess_type` (the stdlib table restricted to common entries;
keys are lowercased extensions including the dot). -/
def typesMap : List (String × String) :=
  [(".txt", "text/plain"), (".html", "text/html"), (".htm", "text/html"),
   (".json", "application/json"), (".pdf", "application/pdf"),
   (".png", "image/png"), (".jpg", "image/jpeg"), (".jpeg", "image/jpeg"),
   (".gif", "image/gif"), (".csv", "text/csv"), (".xml", "text/xml"),
   (".zip", "application/zip"), (".mp4", "video/mp4"),
   (".doc", "application/msword"), (".bin", "application/octet-stream")]

/-- The basename of a path: the characters after the last slash. -/
def basenameOf (p : String) : List Char :=
  ((p.data.reverse.takeWhile (fun c => c ≠ '/')).reverse)

/-- Model of `os.path.splitext` restricted to the extension part: the
suffix of the basename from its last dot, except that a basename whose
characters before that dot are all dots has no extension. -/
def extFromBasename (b : List Char) : List Char :=
  let afterDotRev := b.reverse.takeWhile (fun c => c ≠ '.')
  if afterDotRev.length = b.length then []
  else
    let stem := b.take (b.length - afterDotRev.length - 1)
    if stem.all (fun c => c = '.') then []
    else '.' :: afterDotRev.reverse

/-- Model of Python `mimetypes.guess_type` on a local path: look the
lowercased extension up in the type table; `none` when unrecognizable. -/
def guess_type (p : String) : Option String :=
  List.lookup (String.mk ((extFromBasename (basenameOf p)).map Char.toLower)) typesMap

/-- Lines 54-62 and 121-127: `actual_mime_type = mime_type; if not
actual_mime_type: guess from the path, else fall back to
application/octet-stream`.  A `some ""` argument is falsy, like `None`. -/
def actual_mime_for (mime_type : Option String) (path : String) : String :=
  match mime_type with
  | some m => if m.isEmpty then (guess_type path).getD "application/octet-stream" else m
  | none => (guess_type path).getD "application/octet-stream"

/-- Model of Python `str.title` on the character list: the first
character of every alphabetic run is uppercased, the rest lowercased. -/
def titleChars : List Char → Bool → List Char
  | [], _ => []
  | c :: cs, prevCased =>
    if c.isAlpha then
      (if prevCased then c.toLower else c.toUpper) :: titleChars cs true
    else
      c :: titleChars cs false

/-- Model of Python `str.title`. -/
def pyTitle (s : String) : String := String.mk (titleChars s.data false)

/-- Model of `str.replace` for the single-character pattern
`replace('_', ' ')` used at line 166. -/
def replaceUnderscoreWithSpace (s : String) : String :=
  String.mk (s.data.map (fun c => if c = '_' then ' ' else c))

/-- The `SpaceApply` descriptor built at lines 164-168 for a missing
space: derived name (underscores to spaces, title-cased, plus
" Space") and a description embedding the identifier. -/
def spaceApplyFor (space_external_id : String) : SpaceApply :=
  { space := space_external_id
  , name := pyTitle (replaceUnderscoreWithSpace space_external_id) ++ " Space"
  , description := "Space for " ++ space_external_id ++ " data models and instances." }

/-- Embeds `ensure_space_exists` (lines 156-177): retrieve the space;
on `found` return `false` with no create call; on `CogniteNotFoundError`
apply a fresh descriptor and return whether that apply succeeded; on any
other retrieval error return `false` with no create call. -/
def ensure_space_exists (client : CogniteClient) (space_external_id : String) :
    Bool × List NetworkCall :=
  match client.remote.retrieveSpace space_external_id with
  | .found => (false, [.spaceRetrieve space_external_id])
  | .notFound =>
    let new_space := spaceApplyFor space_external_id
    match client.remote.applySpace new_space with
    | .ok _ => (true, [.spaceRetrieve space_external_id, .spaceApply new_space])
    | .error _ => (false, [.spaceRetrieve space_external_id, .spaceApply new_space])
  | .otherError _ => (false, [.spaceRetrieve space_external_id])

/-- Embeds `create_cdm_file_instance` (lines 31-96).  The MIME guess at
line 56 reads the module-level global `local_file_path`, embedded here as
the explicit first parameter `global_local_file_path`. -/
def create_cdm_file_instance (global_local_file_path : String)
    (client : CogniteClient) (space instance_ext_id file_content_ext_id name : String)
    (mime_type : Option String) : Option NodeApplyInfo × List NetworkCall :=
  let actual_mime_type := actual_mime_for mime_type global_local_file_path
  let cognite_file_source : CogniteFileApply :=
    { file_external_id := file_content_ext_id
    , name := name
    , mime_type := actual_mime_type }
  let instance_to_apply : InstanceApply :=
    { space := space
    , external_id := instance_ext_id
    , sources := [cognite_file_source] }
  match client.remote.applyInstance instance_to_apply with
  | .ok (created_node_info :: _) =>
      (some created_node_info, [.instanceApply instance_to_apply])
  | .ok [] => (none, [.instanceApply instance_to_apply])
  | .error _ => (none, [.instanceApply instance_to_apply])

/-- The three control-flow exits of `upload_file_content_to_cdm_instance`:
success with metadata, the distinct `FileNotFoundError` handler at line
147, and the generic exception handler at line 150.  The Python return
value is recovered by `UploadOutcome.ret`. -/
inductive UploadOutcome where
  | success (meta : FileMetadata)
  | localFileNotFound
  | uploadError (msg : String)
deriving DecidableEq

/-- The Python return value of the upload procedure: `None` on both
failure paths. -/
def UploadOutcome.ret : UploadOutcome → Option FileMetadata
  | .success meta => some meta
  | .localFileNotFound => none
  | .uploadError _ => none

/-- Embeds `upload_file_content_to_cdm_instance` (lines 99-152): guess
the MIME type from `local_path` if needed, read the local bytes (the
`FileNotFoundError` path issues no network call), then upload them with
the content external id and the back-reference `NodeId`. -/
def upload_file_content_to_cdm_instance (fs : FileSystem) (client : CogniteClient)
    (local_path file_content_ext_id cdm_instance_space cdm_instance_external_id : String)
    (mime_type : Option String) : UploadOutcome × List NetworkCall :=
  match fs local_path with
  | none => (.localFileNotFound, [])
  | some file_bytes =>
    match client.remote.uploadBytes
        { content := file_bytes
        , external_id := file_content_ext_id
        , mime_type := actual_mime_for mime_type local_path
        , source_id := { space := cdm_instance_space
                       , external_id := cdm_instance_external_id } } with
    | .ok uploaded_file_metadata => (.success uploaded_file_metadata,
        [.fileUpload
          { content := file_bytes
          , external_id := file_content_ext_id
          , mime_type := actual_mime_for mime_type local_path
          , source_id := { space := cdm_instance_space
                         , external_id := cdm_instance_external_id } }])
    | .error e => (.uploadError e,
        [.fileUpload
          { content := file_bytes
          , external_id := file_content_ext_id
          , mime_type := actual_mime_for mime_type local_path
          , source_id := { space := cdm_instance_space
                         , external_id := cdm_instance_external_id } }])

/-- The `OAuthClientCredentials` built at lines 186-191 from the
environment. -/
def credsFor (env : Env) : OAuthClientCredentials :=
  { token_url := "https://login.microsoftonline.com/" ++ env.cognite_tenant_id.getD ""
      ++ "/oauth2/v2.0/token"
  , client_id := env.cognite_client_id.getD ""
  , client_secret := env.cognite_client_secret.getD ""
  , scopes := IDP_SCOPES env }

/-- The `CogniteClientConfig` built at lines 192-197. -/
def cnfFor (env : Env) : CogniteClientConfig :=
  { client_name := "cognite-cdm-file-uploader-simplified"
  , project := env.cognite_project.getD ""
  , base_url := "https://" ++ CDF_CLUSTER env ++ ".cognitedata.com"
  , credentials := credsFor env }

/-- The client value `CogniteClient(cnf)` constructs (construction
itself performs no network call). -/
def clientFor (env : Env) (remote : Remote) : CogniteClient :=
  { config := cnfFor env, remote := remote }

/-- Embeds `get_cognite_client` (lines 181-205): if any of the four
required environment values is falsy, return `None` before any network
activity; otherwise build credentials and configuration and perform the
single verification call `iam.token.inspect()`, returning the client on
success and `None` on exception. -/
def get_cognite_client (env : Env) (remote : Remote) :
    Option CogniteClient × List NetworkCall :=
  if !(truthy env.cognite_project && truthy env.cognite_tenant_id &&
       truthy env.cognite_client_id && truthy env.cognite_client_secret) then
    (none, [])
  else
    let cognite_client := clientFor env remote
    match remote.tokenInspect with
    | .ok _ => (some cognite_client, [.tokenInspect])
    | .error _ => (none, [.tokenInspect])

/-- The terminal states of the `__main__` sequence (lines 207-257). -/
inductive MainOutcome where
  | clientInitFailed
  | instanceCreationFailed
  | uploadFailed
  | success (meta : FileMetadata)
deriving DecidableEq

/-- The local binding `file_content_external_id` of the entry sequence
(line 218): the instance external id with the suffix `_content`. -/
def file_content_external_id : String := instance_external_id ++ "_content"

/-- Embeds the `__main__` entry sequence (lines 207-257): init client,
ensure the space (result unused), derive the content external id, create
the instance node, and only on success upload the content linked back to
the created node's (space, external id).  The Python locals are inlined:
each step's result expression is repeated instead of `let`-bound, which
denotes the same computation. -/
def mainScript (env : Env) (remote : Remote) (fs : FileSystem) :
    MainOutcome × List NetworkCall :=
  match (get_cognite_client env remote).1 with
  | none => (.clientInitFailed, (get_cognite_client env remote).2)
  | some cognite_client =>
    match (create_cdm_file_instance local_file_path cognite_client cdm_space
        instance_external_id file_content_external_id instance_name
        instance_mime_type).1 with
    | none => (.instanceCreationFailed,
        (get_cognite_client env remote).2 ++
        (ensure_space_exists cognite_client cdm_space).2 ++
        (create_cdm_file_instance local_file_path cognite_client cdm_space
          instance_external_id file_content_external_id instance_name
          instance_mime_type).2)
    | some created_instance_node =>
      match (upload_file_content_to_cdm_instance fs cognite_client local_file_path
          file_content_external_id created_instance_node.space
          created_instance_node.external_id instance_mime_type).1 with
      | .success meta => (.success meta,
          (get_cognite_client env remote).2 ++
          (ensure_space_exists cognite_client cdm_space).2 ++
          (create_cdm_file_instance local_file_path cognite_client cdm_space
            instance_external_id file_content_external_id instance_name
            instance_mime_type).2 ++
          (upload_file_content_to_cdm_instance fs cognite_client local_file_path
            file_content_external_id created_instance_node.space
            created_instance_node.external_id instance_mime_type).2)
      | .localFileNotFound => (.uploadFailed,
          (get_cognite_client env remote).2 ++
          (ensure_space_exists cognite_client cdm_space).2 ++
          (create_cdm_file_instance local_file_path cognite_client cdm_space
            instance_external_id file_content_external_id instance_name
            instance_mime_type).2 ++
          (upload_file_content_to_cdm_instance fs cognite_client local_file_path
            file_content_external_id created_instance_node.space
            created_instance_node.external_id instance_mime_type).2)
      | .uploadError _ => (.uploadFailed,
          (get_cognite_client env remote).2 ++
          (ensure_space_exists cognite_client cdm_space).2 ++
          (create_cdm_file_instance local_file_path cognite_client cdm_space
            instance_external_id file_content_external_id instance_name
            instance_mime_type).2 ++
          (upload_file_content_to_cdm_instance fs cognite_client local_file_path
            file_content_external_id created_instance_node.space
            created_instance_node.external_id instance_mime_type).2)

/-- Whether a network call is a file upload. -/
def isFileUpload : NetworkCall → Bool
  | .fileUpload _ => true
  | _ => false

/-- Whether a network call is a space-create (apply) call. -/
def isSpaceApplyCall : NetworkCall → Bool
  | .spaceApply _ => true
  | _ => false

/-- Number of file-upload calls in a trace. -/
def countUploadCalls (l : List NetworkCall) : Nat := (l.filter isFileUpload).length

/-- Number of space-create calls in a trace. -/
def countSpaceApplyCalls (l : List NetworkCall) : Nat := (l.filter isSpaceApplyCall).length

/-- The upload arguments occurring in a trace, in order. -/
def uploadArgsList (l : List NetworkCall) : List UploadArgs :=
  l.filterMap (fun c => match c with | .fileUpload a => some a | _ => none)

/-- The instance-apply requests occurring in a trace, in order. -/
def instanceApplyList (l : List NetworkCall) : List InstanceApply :=
  l.filterMap (fun c => match c with | .instanceApply i => some i | _ => none)

/-- The node returned to the caller from an instance-apply response:
the first node of a successful non-empty response, otherwise nothing. -/
def firstNode : Except String (List NodeApplyInfo) → Option NodeApplyInfo
  | .ok (n :: _) => some n
  | .ok [] => none
  | .error _ => none

/-- The instance-apply request a `create_cdm_file_instance` call builds
and submits: the node scoped to (space, instance id) whose single
source is the file facet. -/
def builtInstance (global_local_file_path : String)
    (space instance_ext_id file_content_ext_id name : String)
    (mime_type : Option String) : InstanceApply :=
  { space := space
  , external_id := instance_ext_id
  , sources := [{ file_external_id := file_content_ext_id
                , name := name
                , mime_type := actual_mime_for mime_type global_local_file_path }] }

/-- An environment with all four required values set to non-empty
strings. -/
def envAllSet : Env :=
  { cognite_project := some "proj", cdf_cluster := none
  , cognite_tenant_id := some "tenant", cognite_client_id := some "cid"
  , cognite_client_secret := some "secret" }

/-- A mock remote on which every step succeeds: the space is reported
absent, its creation succeeds, instance apply echoes the requested
identity, and upload echoes the requested external id. -/
def happyRemote : Remote :=
  { tokenInspect := .ok ()
  , retrieveSpace := fun _ => .notFound
  , applySpace := fun _ => .ok ()
  , applyInstance := fun inst =>
      .ok [{ space := inst.space, external_id := inst.external_id, version := 1 }]
  , uploadBytes := fun args =>
      .ok { external_id := args.external_id, name := "test_file_jules.txt" } }

/-- The happy mock except that instance apply raises. -/
def failingCreateRemote : Remote :=
  { happyRemote with applyInstance := fun _ => .error "instance apply rejected" }

/-- A filesystem holding bytes only at the script's local file path. -/
def happyFs : FileSystem := fun p => if p = local_file_path then some [104, 105] else none

end CogniteCdmFileUpload

namespace CogniteCdmFileUpload

/-- Trace length of upload calls distributes over concatenation. -/
theorem countUploadCalls_append (a b : List NetworkCall) :
    countUploadCalls (a ++ b) = countUploadCalls a + countUploadCalls b := by
  simp [countUploadCalls, List.filter_append]

/-- Instance-apply extraction distributes over concatenation. -/
theorem instanceApplyList_append (a b : List NetworkCall) :
    instanceApplyList (a ++ b) = instanceApplyList a ++ instanceApplyList b := by
  simp [instanceApplyList, List.filterMap_append]

/-- Upload-argument extraction distributes over concatenation. -/
theorem uploadArgsList_append (a b : List NetworkCall) :
    uploadArgsList (a ++ b) = uploadArgsList a ++ uploadArgsList b := by
  simp [uploadArgsList, List.filterMap_append]

/-- C1: if any of the four required environment values is unset,
`get_cognite_client` returns the absent client and issues no network
call at all (no credential exchange, no client construction call, no
token introspection: the trace is empty). -/
theorem missing_env_returns_none_and_no_network (env : Env) (remote : Remote)
    (h : env.cognite_project = none ∨ env.cognite_tenant_id = none ∨
         env.cognite_client_id = none ∨ env.cognite_client_secret = none) :
    get_cognite_client env remote = (none, []) := by
  rcases h with h | h | h | h <;> simp [get_cognite_client, truthy, h]

/-- C1 witness: with the project variable unset, the client is absent
and the network trace is empty. -/
theorem missing_env_returns_none_and_no_network_witness :
    get_cognite_client
      { cognite_project := none, cdf_cluster := none
      , cognite_tenant_id := some "tenant", cognite_client_id := some "cid"
      , cognite_client_secret := some "secret" }
      { tokenInspect := Except.ok ()
      , retrieveSpace := fun _ => RetrieveOutcome.notFound
      , applySpace := fun _ => Except.ok ()
      , applyInstance := fun _ => Except.error "unused"
      , uploadBytes := fun _ => Except.error "unused" } = (none, []) :=
  missing_env_returns_none_and_no_network _ _ (Or.inl rfl)

/-- C9: a required environment value set to the empty string is falsy,
so it triggers the same configuration failure as an unset one: absent
client and an empty network trace. -/
theorem empty_string_env_returns_none_and_no_network (env : Env) (remote : Remote)
    (h : env.cognite_project = some "" ∨ env.cognite_tenant_id = some "" ∨
         env.cognite_client_id = some "" ∨ env.cognite_client_secret = some "") :
    get_cognite_client env remote = (none, []) := by
  rcases h with h | h | h | h <;> simp [get_cognite_client, truthy, h, String.isEmpty]

/-- C9 witness: with the client secret set to the empty string, the
client is absent and the network trace is empty. -/
theorem empty_string_env_returns_none_and_no_network_witness :
    get_cognite_client
      { cognite_project := some "proj", cdf_cluster := none
      , cognite_tenant_id := some "tenant", cognite_client_id := some "cid"
      , cognite_client_secret := some "" }
      { tokenInspect := Except.ok ()
      , retrieveSpace := fun _ => RetrieveOutcome.notFound
      , applySpace := fun _ => Except.ok ()
      , applyInstance := fun _ => Except.error "unused"
      , uploadBytes := fun _ => Except.error "unused" } = (none, []) :=
  empty_string_env_returns_none_and_no_network _ _ (Or.inr (Or.inr (Or.inr rfl)))

/-- C3: `ensure_space_exists` issues exactly one space-create (apply)
call when retrieval reports not-found, and zero create calls when the
space is found or retrieval fails with any other error. -/
theorem ensure_space_create_call_count (client : CogniteClient) (s : String) :
    countSpaceApplyCalls (ensure_space_exists client s).2 =
      match client.remote.retrieveSpace s with
      | .notFound => 1
      | _ => 0 := by
  unfold ensure_space_exists
  cases h : client.remote.retrieveSpace s <;>
    simp [countSpaceApplyCalls, isSpaceApplyCall, h]
  case notFound =>
    cases hA : client.remote.applySpace (spaceApplyFor s) <;>
      simp [countSpaceApplyCalls, isSpaceApplyCall, hA, List.filter]

/-- C10: `ensure_space_exists` returns `true` exactly when retrieval
reported not-found and the subsequent create call succeeded; the other
three outcomes (found, other retrieval error, create failure) all
return `false`. -/
theorem ensure_space_true_iff_created (client : CogniteClient) (s : String) :
    (ensure_space_exists client s).1 = true ↔
      (client.remote.retrieveSpace s = .notFound ∧
       client.remote.applySpace (spaceApplyFor s) = .ok ()) := by
  unfold ensure_space_exists
  cases h : client.remote.retrieveSpace s <;> simp [h]
  case notFound =>
    cases hA : client.remote.applySpace (spaceApplyFor s) <;> simp [hA]

/-- C4: on the not-found path the applied space descriptor's name is the
identifier with underscores replaced by spaces, title-cased, with
" Space" appended, and its description contains the identifier; for
`my_files_space` the name is `My Files Space Space`. -/
theorem ensure_space_descriptor_shape (client : CogniteClient) (s : String)
    (h : client.remote.retrieveSpace s = .notFound) :
    (∃ sp : SpaceApply,
      (ensure_space_exists client s).2 = [.spaceRetrieve s, .spaceApply sp] ∧
      sp.name = pyTitle (replaceUnderscoreWithSpace s) ++ " Space" ∧
      ∃ pre post, sp.description = pre ++ s ++ post) ∧
    (spaceApplyFor "my_files_space").name = "My Files Space Space" := by
  constructor
  · refine ⟨spaceApplyFor s, ?_, rfl, "Space for ", " data models and instances.", rfl⟩
    unfold ensure_space_exists
    rw [h]
    cases hA : client.remote.applySpace (spaceApplyFor s) <;> simp [hA]
  · rfl

/-- C4 witness: against a mock that reports not-found, the descriptor
for `my_files_space` is applied with the derived name and description. -/
theorem ensure_space_descriptor_shape_witness :
    (∃ sp : SpaceApply,
      (ensure_space_exists
        { config := cnfFor
            { cognite_project := some "proj", cdf_cluster := none
            , cognite_tenant_id := some "tenant", cognite_client_id := some "cid"
            , cognite_client_secret := some "secret" }
        , remote :=
          { tokenInspect := Except.ok ()
          , retrieveSpace := fun _ => RetrieveOutcome.notFound
          , applySpace := fun _ => Except.ok ()
          , applyInstance := fun _ => Except.error "unused"
          , uploadBytes := fun _ => Except.error "unused" } }
        "my_files_space").2 =
        [.spaceRetrieve "my_files_space", .spaceApply sp] ∧
      sp.name = pyTitle (replaceUnderscoreWithSpace "my_files_space") ++ " Space" ∧
      ∃ pre post, sp.description = pre ++ "my_files_space" ++ post) ∧
    (spaceApplyFor "my_files_space").name = "My Files Space Space" :=
  ensure_space_descriptor_shape _ "my_files_space" rfl

end CogniteCdmFileUpload

namespace CogniteCdmFileUpload

/-- `create_cdm_file_instance` always issues exactly the one
instance-apply call, carrying `builtInstance`. -/
theorem create_snd (lfp : String) (client : CogniteClient)
    (sp iid fid nm : String) (mt : Option String) :
    (create_cdm_file_instance lfp client sp iid fid nm mt).2 =
      [.instanceApply (builtInstance lfp sp iid fid nm mt)] := by
  unfold create_cdm_file_instance builtInstance
  cases h : client.remote.applyInstance
      ⟨sp, iid, [⟨fid, nm, actual_mime_for mt lfp⟩]⟩ with
  | error e => simp [h]
  | ok l => cases l <;> simp [h]

/-- `create_cdm_file_instance` returns the first node of a successful
non-empty apply response, and nothing otherwise. -/
theorem create_fst (lfp : String) (client : CogniteClient)
    (sp iid fid nm : String) (mt : Option String) :
    (create_cdm_file_instance lfp client sp iid fid nm mt).1 =
      firstNode (client.remote.applyInstance (builtInstance lfp sp iid fid nm mt)) := by
  unfold create_cdm_file_instance builtInstance firstNode
  cases h : client.remote.applyInstance
      ⟨sp, iid, [⟨fid, nm, actual_mime_for mt lfp⟩]⟩ with
  | error e => simp [h]
  | ok l => cases l <;> simp [h]

/-- C7: `create_cdm_file_instance` submits one apply request and hands
back the created node exactly when the remote response is a successful
non-empty node list; an exception or an empty response yields the
absent value (the function is total, so it never raises). -/
theorem create_instance_result_characterization (lfp : String)
    (client : CogniteClient) (sp iid fid nm : String) (mt : Option String) :
    ∃ inst : InstanceApply,
      (create_cdm_file_instance lfp client sp iid fid nm mt).2 = [.instanceApply inst] ∧
      (create_cdm_file_instance lfp client sp iid fid nm mt).1 =
        firstNode (client.remote.applyInstance inst) ∧
      ((create_cdm_file_instance lfp client sp iid fid nm mt).1.isSome ↔
        ∃ n l, client.remote.applyInstance inst = .ok (n :: l)) := by
  refine ⟨builtInstance lfp sp iid fid nm mt, create_snd lfp client sp iid fid nm mt,
    create_fst lfp client sp iid fid nm mt, ?_⟩
  rw [create_fst lfp client sp iid fid nm mt]
  cases h : client.remote.applyInstance (builtInstance lfp sp iid fid nm mt) with
  | error e => simp [firstNode]
  | ok l => cases l <;> simp [firstNode]

/-- C5: with the MIME argument absent, the file facet submitted by
`create_cdm_file_instance` carries the type guessed from the (global)
local file path when the extension is recognizable, and
`application/octet-stream` otherwise; `.txt` guesses `text/plain`, and
an unrecognizable extension guesses nothing. -/
theorem create_instance_mime_guessing (lfp : String) (client : CogniteClient)
    (sp iid fid nm : String) :
    (∃ inst : InstanceApply,
      (create_cdm_file_instance lfp client sp iid fid nm none).2 = [.instanceApply inst] ∧
      inst.sources = [{ file_external_id := fid, name := nm
                      , mime_type := (guess_type lfp).getD "application/octet-stream" }]) ∧
    guess_type "./test_file_jules.txt" = some "text/plain" ∧
    guess_type "./some_file.unknownext" = none := by
  refine ⟨⟨builtInstance lfp sp iid fid nm none,
    create_snd lfp client sp iid fid nm none, rfl⟩, by decide, by decide⟩

/-- C6: with no file at the local path, the upload procedure exits
through the distinct local-file-not-found path (not the generic
exception path), returns the absent value, and issues no network call. -/
theorem upload_missing_local_file (fs : FileSystem) (client : CogniteClient)
    (lp fid sp eid : String) (mt : Option String) (h : fs lp = none) :
    upload_file_content_to_cdm_instance fs client lp fid sp eid mt =
      (.localFileNotFound, []) ∧
    (upload_file_content_to_cdm_instance fs client lp fid sp eid mt).1.ret = none := by
  unfold upload_file_content_to_cdm_instance
  rw [h]
  exact ⟨rfl, rfl⟩

/-- C6 witness: on an empty filesystem the upload procedure returns the
not-found outcome, an absent value, and an empty trace. -/
theorem upload_missing_local_file_witness :
    upload_file_content_to_cdm_instance (fun _ => none)
      { config := cnfFor
          { cognite_project := some "proj", cdf_cluster := none
          , cognite_tenant_id := some "tenant", cognite_client_id := some "cid"
          , cognite_client_secret := some "secret" }
      , remote :=
        { tokenInspect := Except.ok ()
        , retrieveSpace := fun _ => RetrieveOutcome.notFound
        , applySpace := fun _ => Except.ok ()
        , applyInstance := fun _ => Except.error "unused"
        , uploadBytes := fun _ => Except.error "unused" } }
      "./missing.txt" "fid_content" "my_files_space" "my_document_instance_001"
      (some "text/plain") = (.localFileNotFound, []) ∧
    (upload_file_content_to_cdm_instance (fun _ => none)
      { config := cnfFor
          { cognite_project := some "proj", cdf_cluster := none
          , cognite_tenant_id := some "tenant", cognite_client_id := some "cid"
          , cognite_client_secret := some "secret" }
      , remote :=
        { tokenInspect := Except.ok ()
        , retrieveSpace := fun _ => RetrieveOutcome.notFound
        , applySpace := fun _ => Except.ok ()
        , applyInstance := fun _ => Except.error "unused"
        , uploadBytes := fun _ => Except.error "unused" } }
      "./missing.txt" "fid_content" "my_files_space" "my_document_instance_001"
      (some "text/plain")).1.ret = none :=
  upload_missing_local_file _ _ _ _ _ _ _ rfl

end CogniteCdmFileUpload

namespace CogniteCdmFileUpload

/-- A successfully returned client is exactly the one built from the
environment and the remote handle. -/
theorem gcc_client_eq (env : Env) (remote : Remote) (c : CogniteClient)
    (h : (get_cognite_client env remote).1 = some c) : c = clientFor env remote := by
  unfold get_cognite_client at h
  split at h
  · simp at h
  · cases hT : remote.tokenInspect <;> rw [hT] at h <;> simp at h
    exact h.symm

/-- Client initialization never issues upload or instance-apply calls. -/
theorem gcc_trace_shape (env : Env) (remote : Remote) :
    countUploadCalls (get_cognite_client env remote).2 = 0 ∧
    instanceApplyList (get_cognite_client env remote).2 = [] ∧
    uploadArgsList (get_cognite_client env remote).2 = [] := by
  unfold get_cognite_client
  split
  · simp [countUploadCalls, instanceApplyList, uploadArgsList]
  · cases hT : remote.tokenInspect <;>
      simp [hT, countUploadCalls, instanceApplyList, uploadArgsList,
        isFileUpload, List.filter]

/-- The space ensurer never issues upload or instance-apply calls. -/
theorem ensure_trace_shape (client : CogniteClient) (s : String) :
    countUploadCalls (ensure_space_exists client s).2 = 0 ∧
    instanceApplyList (ensure_space_exists client s).2 = [] ∧
    uploadArgsList (ensure_space_exists client s).2 = [] := by
  unfold ensure_space_exists
  cases h : client.remote.retrieveSpace s <;>
    simp [h, countUploadCalls, instanceApplyList, uploadArgsList,
      isFileUpload, List.filter]
  case notFound =>
    cases hA : client.remote.applySpace (spaceApplyFor s) <;>
      simp [hA, countUploadCalls, instanceApplyList, uploadArgsList,
        isFileUpload, List.filter]

/-- A successful upload issued exactly one upload call, carrying the
requested content external id, and its metadata is the remote's
response to that call. -/
theorem upload_success_trace (fs : FileSystem) (client : CogniteClient)
    (lp fid sp eid : String) (mt : Option String) (meta : FileMetadata)
    (h : (upload_file_content_to_cdm_instance fs client lp fid sp eid mt).1 =
      .success meta) :
    ∃ args : UploadArgs,
      (upload_file_content_to_cdm_instance fs client lp fid sp eid mt).2 =
        [.fileUpload args] ∧
      args.external_id = fid ∧
      client.remote.uploadBytes args = .ok meta := by
  unfold upload_file_content_to_cdm_instance at h ⊢
  cases hf : fs lp with
  | none => simp only [hf] at h; simp at h
  | some file_bytes =>
    simp only [hf] at h
    cases hu : client.remote.uploadBytes
        ⟨file_bytes, fid, actual_mime_for mt lp, ⟨sp, eid⟩⟩ with
    | error e => simp only [hu] at h; simp at h
    | ok m =>
      simp only [hu] at h
      simp only [UploadOutcome.success.injEq] at h
      refine ⟨⟨file_bytes, fid, actual_mime_for mt lp, ⟨sp, eid⟩⟩, ?_, rfl, ?_⟩
      · simp [hu]
      · rw [hu, h]

/-- C2: whenever the instance-creation step of the entry sequence
returns the absent value, the run's network trace contains zero upload
calls: the uploader is never invoked after a failed creation. -/
theorem main_failed_create_skips_upload (env : Env) (remote : Remote) (fs : FileSystem)
    (h : (create_cdm_file_instance local_file_path (clientFor env remote) cdm_space
          instance_external_id file_content_external_id instance_name
          instance_mime_type).1 = none) :
    countUploadCalls (mainScript env remote fs).2 = 0 := by
  unfold mainScript
  cases h0 : (get_cognite_client env remote).1 with
  | none => exact (gcc_trace_shape env remote).1
  | some c =>
    have hc : c = clientFor env remote := gcc_client_eq env remote c h0
    subst hc
    simp only [h]
    rw [countUploadCalls_append, countUploadCalls_append,
      (gcc_trace_shape env remote).1,
      (ensure_trace_shape (clientFor env remote) cdm_space).1,
      create_snd]
    simp [countUploadCalls, isFileUpload, List.filter]

/-- C8: when the entry sequence ends in success, its trace holds one
instance-apply call and one upload call; the upload's external id is
the instance external id with `_content` appended, the same id sits in
the instance's file facet, and the reported metadata is the remote's
response to that upload call. -/
theorem main_success_content_external_id (env : Env) (remote : Remote)
    (fs : FileSystem) (meta : FileMetadata)
    (h : (mainScript env remote fs).1 = .success meta) :
    ∃ (inst : InstanceApply) (args : UploadArgs),
      instanceApplyList (mainScript env remote fs).2 = [inst] ∧
      uploadArgsList (mainScript env remote fs).2 = [args] ∧
      inst.sources = [{ file_external_id := file_content_external_id
                      , name := instance_name, mime_type := "text/plain" }] ∧
      args.external_id = file_content_external_id ∧
      file_content_external_id = instance_external_id ++ "_content" ∧
      remote.uploadBytes args = .ok meta := by
  unfold mainScript at h
  cases h0 : (get_cognite_client env remote).1 with
  | none => simp only [h0] at h; simp at h
  | some c =>
    have hc : c = clientFor env remote := gcc_client_eq env remote c h0
    subst hc
    simp only [h0] at h
    cases h2 : (create_cdm_file_instance local_file_path (clientFor env remote) cdm_space
        instance_external_id file_content_external_id instance_name
        instance_mime_type).1 with
    | none => simp only [h2] at h; simp at h
    | some n =>
      simp only [h2] at h
      cases h3 : (upload_file_content_to_cdm_instance fs (clientFor env remote)
          local_file_path file_content_external_id n.space n.external_id
          instance_mime_type).1 with
      | localFileNotFound => simp only [h3] at h; simp at h
      | uploadError e => simp only [h3] at h; simp at h
      | success m =>
        simp only [h3] at h
        have hm : m = meta := by simpa using h
        subst hm
        obtain ⟨args, hu2, huid, hub⟩ := upload_success_trace fs (clientFor env remote)
          local_file_path file_content_external_id n.space n.external_id
          instance_mime_type m h3
        refine ⟨builtInstance local_file_path cdm_space instance_external_id
            file_content_external_id instance_name instance_mime_type, args,
          ?_, ?_, rfl, huid, rfl, hub⟩
        · simp only [mainScript, h0, h2, h3]
          rw [instanceApplyList_append, instanceApplyList_append, instanceApplyList_append,
            (gcc_trace_shape env remote).2.1,
            (ensure_trace_shape (clientFor env remote) cdm_space).2.1,
            create_snd, hu2]
          simp [instanceApplyList]
        · simp only [mainScript, h0, h2, h3]
          rw [uploadArgsList_append, uploadArgsList_append, uploadArgsList_append,
            (gcc_trace_shape env remote).2.2,
            (ensure_trace_shape (clientFor env remote) cdm_space).2.2,
            create_snd, hu2]
          simp [uploadArgsList]

/-- C2 witness: on a mock whose instance apply raises, creation returns
the absent value and the run issues zero upload calls. -/
theorem main_failed_create_skips_upload_witness :
    (create_cdm_file_instance local_file_path (clientFor envAllSet failingCreateRemote)
        cdm_space instance_external_id file_content_external_id instance_name
        instance_mime_type).1 = none ∧
    countUploadCalls (mainScript envAllSet failingCreateRemote happyFs).2 = 0 :=
  ⟨rfl, main_failed_create_skips_upload envAllSet failingCreateRemote happyFs rfl⟩

/-- C8 witness: the happy-path run succeeds and its uploaded content
id is `my_document_instance_001_content`. -/
theorem main_success_content_external_id_witness :
    ∃ (inst : InstanceApply) (args : UploadArgs),
      instanceApplyList (mainScript envAllSet happyRemote happyFs).2 = [inst] ∧
      uploadArgsList (mainScript envAllSet happyRemote happyFs).2 = [args] ∧
      inst.sources = [{ file_external_id := file_content_external_id
                      , name := instance_name, mime_type := "text/plain" }] ∧
      args.external_id = file_content_external_id ∧
      file_content_external_id = instance_external_id ++ "_content" ∧
      happyRemote.uploadBytes args =
        .ok { external_id := "my_document_instance_001_content"
            , name := "test_file_jules.txt" } :=
  main_success_content_external_id envAllSet happyRemote happyFs
    { external_id := "my_document_instance_001_content", name := "test_file_jules.txt" } rfl

end CogniteCdmFileUpload
